import Mathlib

/-!
Shallow embedding of the swim-meet import pipeline of src/main.rs.

Modelling conventions:
* Rust strings are modelled as `List Char` (the pipeline's data is ASCII, where
  Rust's byte indexing and character indexing coincide).
* Rust `i32` is modelled as `Int`; `str::parse::<i32>` checks the i32 range
  explicitly where it matters.
* A Rust panic (a failed `unwrap`/`expect` or an out-of-bounds slice) is
  modelled as `Option.none`; fallible returns are `Except`.
* The Postgres pool is modelled as explicit list-valued state; the external
  chrono date parser is an abstract parameter of type `DateParser`.
-/

namespace Coach

/-- Whitespace test on the characters that occur in this pipeline
(models char::is_whitespace restricted to ASCII). -/
def isSpaceChar (c : Char) : Bool :=
  c = ' ' || c = '\t' || c = '\n' || c = '\r'

/-- Models str::trim. -/
def trimChars (l : List Char) : List Char :=
  ((l.dropWhile isSpaceChar).reverse.dropWhile isSpaceChar).reverse

/-- Models str::to_uppercase on the ASCII fragment. -/
def toUpperChars (l : List Char) : List Char := l.map Char.toUpper

/-- Models Rust str::split(sep): splits at every separator occurrence and is
never empty (an empty input yields one empty piece). -/
def splitOnChar (sep : Char) : List Char → List (List Char)
  | [] => [[]]
  | c :: cs =>
    if c = sep then [] :: splitOnChar sep cs
    else
      match splitOnChar sep cs with
      | [] => [[c]]
      | p :: ps => (c :: p) :: ps

/-- The numeric value of an ASCII digit. -/
def digitVal (c : Char) : Nat := c.toNat - 48

/-- ASCII digit test. -/
def isDigitChar (c : Char) : Bool := 48 ≤ c.toNat && c.toNat ≤ 57

def parseDigitsAux : Nat → List Char → Option Nat
  | acc, [] => some acc
  | acc, c :: cs =>
    if isDigitChar c then parseDigitsAux (acc * 10 + digitVal c) cs else none

/-- A non-empty run of ASCII digits to `Nat`
(the unsigned core of str::parse::<i32>). -/
def parseDigits : List Char → Option Nat
  | [] => none
  | c :: cs => parseDigitsAux 0 (c :: cs)

def i32Max : Nat := 2147483647

/-- Models str::parse::<i32>: optional sign, digits, i32 range check. -/
def parseI32 (l : List Char) : Option Int :=
  match l with
  | [] => none
  | c :: rest =>
    if c = '-' then
      (parseDigits rest).bind fun n =>
        if n ≤ i32Max + 1 then some (-(n : Int)) else none
    else if c = '+' then
      (parseDigits rest).bind fun n =>
        if n ≤ i32Max then some ((n : Int)) else none
    else
      (parseDigits (c :: rest)).bind fun n =>
        if n ≤ i32Max then some ((n : Int)) else none

/-- Models time_to_miliseconds of main.rs. `none` models a panic: the code
unwraps the seconds and centiseconds parses, while a minutes parse failure
falls back to 0. -/
def time_to_miliseconds (time : List Char) : Option Int :=
  if time = [] then some 0
  else
    let time_minute : Int :=
      match parseI32 ((splitOnChar ':' time).headI) with
      | some i => i
      | none => 0
    match (splitOnChar ':' time).get? 1 with
    | none => none
    | some seg =>
      match parseI32 ((splitOnChar '.' seg).headI) with
      | none => none
      | some time_second =>
        match parseI32 ((splitOnChar '.' time).getLastD []) with
        | none => none
        | some time_milisecond =>
          some (time_minute * 60000 + time_second * 1000 + time_milisecond * 10)

def FREESTYLEc : List Char := ['F', 'R', 'E', 'E', 'S', 'T', 'Y', 'L', 'E']

def BACKSTROKEc : List Char := ['B', 'A', 'C', 'K', 'S', 'T', 'R', 'O', 'K', 'E']

def BREASTSTROKEc : List Char := ['B', 'R', 'E', 'A', 'S', 'T', 'S', 'T', 'R', 'O', 'K', 'E']

def BUTTERFLYc : List Char := ['B', 'U', 'T', 'T', 'E', 'R', 'F', 'L', 'Y']

def MEDLEYc : List Char := ['M', 'E', 'D', 'L', 'E', 'Y']

def LONGc : List Char := ['L', 'O', 'N', 'G']

def SHORTc : List Char := ['S', 'H', 'O', 'R', 'T']

/-- Models convert_style of main.rs: a fixed case-sensitive table; every other
input maps to the empty string. -/
def convert_style (style : List Char) : List Char :=
  if style = ['F', 'r'] then FREESTYLEc
  else if style = ['F', 'r', 'e', 'e'] then FREESTYLEc
  else if style = ['B', 'k'] then BACKSTROKEc
  else if style = ['B', 'a', 'c', 'k'] then BACKSTROKEc
  else if style = ['B', 'r'] then BREASTSTROKEc
  else if style = ['B', 'r', 'e', 'a', 's', 't'] then BREASTSTROKEc
  else if style = ['F', 'L'] then BUTTERFLYc
  else if style = ['F', 'l', 'y'] then BUTTERFLYc
  else if style = ['I', 'M'] then MEDLEYc
  else if style = ['I', '.', 'M'] then MEDLEYc
  else []

/-- Models chrono::NaiveDate as an abstract day count. -/
abbrev Date := Int

/-- NaiveDate::MIN, a sentinel initial date. -/
def dateMIN : Date := -999999999

/-- The external chrono parser NaiveDate::parse_from_str(_, "%b-%d-%y"),
an excluded collaborator, kept abstract. -/
abbrev DateParser := List Char → Option Date

structure Swimmer where
  id : List Char
  first_name : List Char
  last_name : List Char
  gender : List Char
  birth_date : Date
deriving DecidableEq

/-- The initial current swimmer of the results importer (empty fields,
NaiveDate::MIN). -/
def emptySwimmer : Swimmer := ⟨[], [], [], [], dateMIN⟩

/-- Modelled from the spec: the swimmer table's key. The insert statement
"insert into swimmer .. on conflict do nothing" is in src/main.rs, but the
conflicting constraint lives in storage/migrations (not under src/); the spec
says the external id is the stable primary key, so a conflict is a duplicate
id and the insert is then a no-op. -/
def insertSwimmer (db : List Swimmer) (s : Swimmer) : List Swimmer :=
  if db.any (fun r => r.id = s.id) then db else db ++ [s]

/-- Models search_swimmer_by_name of main.rs: the name is split on spaces
into first (token 0) and last (token 1); a missing last token binds SQL null
and matches nothing; fetch_one returns the first exact match or errs. -/
def search_swimmer_by_name (db : List Swimmer) (name : List Char) : Option Swimmer :=
  match (splitOnChar ' ' name).get? 1 with
  | none => none
  | some last =>
    let first := (splitOnChar ' ' name).headI
    match db.find? (fun r => r.first_name = first && r.last_name = last) with
    | none => none
    | some r =>
      some { id := r.id, first_name := trimChars first, last_name := trimChars last,
             gender := r.gender, birth_date := r.birth_date }

/-- Models import_swimmer of main.rs. The row is the csv record as a partial
column map. The outer `none` is a panic (missing column / storage failure);
`Except.error` is the returned chrono ParseError. -/
def swimmerImport (pd : DateParser) (db : List Swimmer) (row : Nat → Option (List Char)) :
    Option (List Swimmer × Except Unit (List Char)) :=
  match row 0 with
  | none => none
  | some c0 =>
    let swimmer_id := trimChars c0
    match row 4 with
    | none => none
    | some full_name =>
      let last_name := (splitOnChar ' ' full_name).headI
      let first_name := (splitOnChar ' ' full_name).getLastD []
      match row 5 with
      | none => none
      | some g =>
        let gender := toUpperChars g
        match row 7 with
        | none => none
        | some birth =>
          match pd birth with
          | none => some (db, Except.error ())
          | some birth_date =>
            some (insertSwimmer db ⟨swimmer_id, first_name, last_name, gender, birth_date⟩,
                  Except.ok swimmer_id)

structure TimeInsert where
  swimmer_id : List Char
  style : List Char
  distance : Int
  course : List Char
  time_official : Int
  time_date : Date
deriving DecidableEq

/-- Models import_time of main.rs: encode the clock string and issue one
"insert .. on conflict do nothing" into swimmer_time; returns the issued
record; `none` is a panic inside the codec. -/
def timeImport (swimmer_id style : List Char) (distance : Int) (course : List Char)
    (best_time : List Char) (best_time_date : Date) : Option TimeInsert :=
  match time_to_miliseconds best_time with
  | none => none
  | some ms => some ⟨swimmer_id, style, distance, course, ms, best_time_date⟩

/-- The LONG half of import_times of main.rs (the code after the SHORT slot):
col 14 missing or empty returns with what was inserted so far; otherwise the
raw field is sliced to its first 8 characters (a panic when shorter), the
col 15 date is parsed (a failure returns), and the LONG insert is issued. -/
def timesImportLong (pd : DateParser) (row : Nat → Option (List Char))
    (swimmer_id style : List Char) (distance : Int) (acc : List TimeInsert) :
    Option (List TimeInsert) :=
  match row 14 with
  | none => some acc
  | some t14 =>
    if t14 = [] then some acc
    else if 8 ≤ t14.length then
      match row 15 with
      | none => none
      | some d15 =>
        match pd d15 with
        | none => some acc
        | some long_date =>
          match timeImport swimmer_id style distance LONGc (t14.take 8) long_date with
          | none => none
          | some ins => some (acc ++ [ins])
    else none

/-- Models import_times of main.rs: the list of performance inserts issued for
one entries row; `none` is a panic (missing column, unparseable distance, an
out-of-bounds `&time[..8]` slice, or a codec panic). A SHORT-slot date-parse
failure executes `return`, issuing nothing at all. -/
def timesImport (pd : DateParser) (row : Nat → Option (List Char)) :
    Option (List TimeInsert) :=
  match row 0 with
  | none => none
  | some swimmer_id =>
    match row 9 with
    | none => none
    | some event =>
      match parseI32 ((splitOnChar ' ' event).headI) with
      | none => none
      | some distance =>
        let style := convert_style ((splitOnChar ' ' event).getLastD [])
        match row 12 with
        | none => some []
        | some t12 =>
          if t12 = [] then
            timesImportLong pd row swimmer_id style distance []
          else if 8 ≤ t12.length then
            match row 13 with
            | none => none
            | some d13 =>
              match pd d13 with
              | none => some []
              | some short_date =>
                match timeImport swimmer_id style distance SHORTc (t12.take 8) short_date with
                | none => none
                | some ins => timesImportLong pd row swimmer_id style distance [ins]
          else none

structure EntriesState where
  swimmers : List Swimmer
  times : List TimeInsert
  ids : List (List Char)
  num_entries : Int
deriving DecidableEq

/-- Models HashSet::insert on the touched-swimmer set. -/
def insertId (ids : List (List Char)) (id : List Char) : List (List Char) :=
  if id ∈ ids then ids else ids ++ [id]

/-- Modelled from the spec: the swimmer_time conflict key. The statement
"insert into swimmer_time .. on conflict do nothing" is in src/main.rs but its
unique constraint lives in storage/migrations (not under src/); per the spec a
duplicate performance record key is silently dropped, modelled here as
full-record membership. -/
def insertTime (ts : List TimeInsert) (t : TimeInsert) : List TimeInsert :=
  if t ∈ ts then ts else ts ++ [t]

/-- Models one Ok(row) iteration of the record loop of import_meet_entries:
the swimmer import (an error only logs and skips the identity step), then
unconditionally the time import, then the entries counter. -/
def entryRowImport (pd : DateParser) (st : EntriesState) (row : Nat → Option (List Char)) :
    Option EntriesState :=
  match swimmerImport pd st.swimmers row with
  | none => none
  | some (db2, r) =>
    let ids2 := match r with
      | Except.ok id => insertId st.ids id
      | Except.error _ => st.ids
    match timesImport pd row with
    | none => none
    | some inserts =>
      some { swimmers := db2, times := inserts.foldl insertTime st.times,
             ids := ids2, num_entries := st.num_entries + 1 }

structure SwimmerTime where
  swimmer : Swimmer
  style : List Char
  distance : Int
  course : List Char
  time : Int
  time_date : Date
deriving DecidableEq

/-- One table cell of the results document: the inner_html of the <b>
elements it contains, and its own inner_html. -/
structure Cell where
  names : List (List Char)
  value : List Char
deriving DecidableEq

/-- Models the compiled regex [0-5][0-9]:[0-5][0-9].[0-9]{2}\S anchored at
both ends: exactly nine characters, where the unescaped dot matches any
character but a newline and the final one is non-whitespace. -/
def reMatch (v : List Char) : Bool :=
  match v with
  | [c0, c1, c2, c3, c4, c5, c6, c7, c8] =>
    (48 ≤ c0.toNat && c0.toNat ≤ 53) && isDigitChar c1 && (c2 == ':') &&
    (48 ≤ c3.toNat && c3.toNat ≤ 53) && isDigitChar c4 && (!(c5 == '\n')) &&
    isDigitChar c6 && isDigitChar c7 && (!isSpaceChar c8)
  | _ => false

/-- Models the inner for-name loop of import_meet_results over the <b>
elements of one cell: a successful directory lookup adopts the swimmer and
marks the row as a name row; a failure invalidates the current swimmer and
breaks. Returns (swimmer, valid_swimmer, name_row). -/
def processNames (db : List Swimmer) : List (List Char) → Swimmer → Bool → Bool →
    Swimmer × Bool × Bool
  | [], sw, vs, nr => (sw, vs, nr)
  | n :: rest, _, _, nr =>
    let full_name := (splitOnChar ',' n).headI
    match search_swimmer_by_name db full_name with
    | some s => processNames db rest s true true
    | none => (emptySwimmer, false, nr)

/-- The course selected by a matching results-document time cell: the two
sequential ends_with tests of the source (L gives LONG, S gives SHORT, any
other trailing character keeps the previous course). -/
def courseOf (v : List Char) (c0 : List Char) : List Char :=
  if v.getLastD ' ' = 'L' then LONGc else if v.getLastD ' ' = 'S' then SHORTc else c0

/-- Models the cell_idx match of import_meet_results on a data cell's value;
`none` is a panic (a codec unwrap, or a one-token cell 2). Returns the
updated (swimmer_time, valid_row). -/
def processValue (idx : Nat) (value : List Char) (stime : SwimmerTime) (vr : Bool) :
    Option (SwimmerTime × Bool) :=
  match idx with
  | 0 =>
    if reMatch value then
      match time_to_miliseconds (value.take 8) with
      | none => none
      | some t =>
        let st1 := { stime with time := t }
        let st2 := if value.getLastD ' ' = 'L' then { st1 with course := LONGc } else st1
        let st3 := if value.getLastD ' ' = 'S' then { st2 with course := SHORTc } else st2
        some (st3, vr)
    else some (stime, false)
  | 2 =>
    let st1 := { stime with
      swimmer := { stime.swimmer with gender := toUpperChars ((splitOnChar ' ' value).headI) } }
    let sty := convert_style ((splitOnChar ' ' value).getLastD [])
    match (splitOnChar ' ' value).get? 1 with
    | none => none
    | some dstr =>
      match parseI32 dstr with
      | none => some ({ st1 with distance := 0, style := sty }, false)
      | some d => some ({ st1 with distance := d, style := sty }, vr)
  | _ => some (stime, vr)

/-- The per-row mutable state of the cell loop of import_meet_results. -/
structure RowAcc where
  sw : Swimmer
  vs : Bool
  nr : Bool
  vr : Bool
  idx : Nat
  stime : SwimmerTime
deriving DecidableEq

/-- Models the cell loop of import_meet_results: each cell first runs the
name loop, then the break check on (valid_swimmer, name_row, valid_row), then
the data handling; the Rust break returns the accumulator. -/
def processCells (db : List Swimmer) : List Cell → RowAcc → Option RowAcc
  | [], acc => some acc
  | cell :: rest, acc =>
    let r := processNames db cell.names acc.sw acc.vs acc.nr
    if !r.2.1 || r.2.2 || !acc.vr then
      some { acc with sw := r.1, vs := r.2.1, nr := r.2.2 }
    else
      match processValue acc.idx cell.value acc.stime acc.vr with
      | none => none
      | some (st2, vr2) =>
        processCells db rest
          { sw := r.1, vs := r.2.1, nr := r.2.2, vr := vr2, idx := acc.idx + 1, stime := st2 }

/-- Models one <tr> iteration of import_meet_results: the swimmer_time draft
is cloned from the current swimmer, the cells run, and the row is accepted as
a performance record exactly when valid_swimmer && !name_row && valid_row.
Returns (current swimmer, valid_swimmer, accepted record). -/
def processRow (db : List Swimmer) (sw : Swimmer) (vs : Bool) (row : List Cell) :
    Option (Swimmer × Bool × Option SwimmerTime) :=
  match processCells db row ⟨sw, vs, false, true, 0, ⟨sw, [], 0, [], 0, dateMIN⟩⟩ with
  | none => none
  | some acc =>
    if acc.vs && !acc.nr && acc.vr then some (acc.sw, acc.vs, some acc.stime)
    else some (acc.sw, acc.vs, none)

/-- Models the row loop of import_meet_results over one parsed document,
threading the current swimmer and valid_swimmer across rows and collecting
the accepted performance records. -/
def processRows (db : List Swimmer) (sw : Swimmer) (vs : Bool) :
    List (List Cell) → Option (List SwimmerTime)
  | [] => some []
  | row :: rest =>
    match processRow db sw vs row with
    | none => none
    | some (sw2, vs2, acc) =>
      match processRows db sw2 vs2 rest with
      | none => none
      | some l => some (acc.toList ++ l)

/-- Models import_meet_results on one uploaded document: the current swimmer
starts empty and — as in the source — valid_swimmer starts true. -/
def meetResultsImport (db : List Swimmer) (rows : List (List Cell)) :
    Option (List SwimmerTime) :=
  processRows db emptySwimmer true rows

/-- An ASCII digit, stated on character codes. -/
abbrev Dig (c : Char) : Prop := 48 ≤ c.toNat ∧ c.toNat ≤ 57

/-- A sample SwimmerTime draft, used to instantiate universally quantified
statements at a concrete input. -/
def sampleTime : SwimmerTime := ⟨emptySwimmer, [], 0, [], 0, dateMIN⟩

/-- A results-document data row (no bolded name in any cell) whose three cells
are all well formed: time cell 01:23.45L, a filler cell, and M 100 Fr. -/
def c1Row : List Cell :=
  [⟨[], ['0', '1', ':', '2', '3', '.', '4', '5', 'L']⟩, ⟨[], ['x']⟩,
   ⟨[], ['M', ' ', '1', '0', '0', ' ', 'F', 'r']⟩]

/-- A concrete stand-in for the chrono date parser: it recognises exactly the
text Mar-01-24 (as day number 19783) and rejects everything else. -/
def pdSample : DateParser :=
  fun s => if s = ['M', 'a', 'r', '-', '0', '1', '-', '2', '4'] then some 19783 else none

/-- An entries row whose SHORT slot has a well-formed time but an unparseable
date, and whose LONG slot is fully well formed. -/
def rowC2 : Nat → Option (List Char) :=
  fun n =>
    if n = 0 then some ['S', '1']
    else if n = 9 then some ['1', '0', '0', ' ', 'F', 'r']
    else if n = 12 then some ['0', '1', ':', '0', '5', '.', '2', '3']
    else if n = 13 then some ['b', 'a', 'd']
    else if n = 14 then some ['0', '1', ':', '0', '6', '.', '9', '9']
    else if n = 15 then some ['M', 'a', 'r', '-', '0', '1', '-', '2', '4']
    else none

/-- An entries row with an unparseable birth date (col 7) but a well-formed
SHORT best time; its LONG time field is empty. -/
def rowC8 : Nat → Option (List Char) :=
  fun n =>
    if n = 0 then some ['S', '2']
    else if n = 4 then some ['D', 'o', 'e', ' ', 'J', 'o', 'h', 'n']
    else if n = 5 then some ['m']
    else if n = 7 then some ['x', 'x']
    else if n = 9 then some ['1', '0', '0', ' ', 'F', 'r']
    else if n = 12 then some ['0', '1', ':', '0', '5', '.', '2', '3']
    else if n = 13 then some ['M', 'a', 'r', '-', '0', '1', '-', '2', '4']
    else if n = 14 then some []
    else none

/-- An empty entries-import state. -/
def stSample : EntriesState := ⟨[], [], [], 0⟩

/-- A swimmer already present in the directory under id S1. -/
def swimmerS1 : Swimmer :=
  ⟨['S', '1'], ['J', 'o', 'h', 'n'], ['D', 'o', 'e'], ['M'], 10000⟩

/-- An entries row re-upserting id S1 (padded with spaces) with a different
name, gender and birth date than the stored record. -/
def rowC9 : Nat → Option (List Char) :=
  fun n =>
    if n = 0 then some [' ', 'S', '1', ' ']
    else if n = 4 then some ['X', ' ', 'Y']
    else if n = 5 then some ['f']
    else if n = 7 then some ['M', 'a', 'r', '-', '0', '1', '-', '2', '4']
    else none

/-- An entries row whose SHORT time field is non-empty but only 4 characters
long. -/
def rowC10a : Nat → Option (List Char) :=
  fun n =>
    if n = 0 then some ['S', '1']
    else if n = 9 then some ['1', '0', '0', ' ', 'F', 'r']
    else if n = 12 then some ['0', '1', ':', '0']
    else none

/-- An entries row whose SHORT time field is empty and whose LONG time field
is non-empty but only 2 characters long. -/
def rowC10b : Nat → Option (List Char) :=
  fun n =>
    if n = 0 then some ['S', '1']
    else if n = 9 then some ['1', '0', '0', ' ', 'F', 'r']
    else if n = 12 then some []
    else if n = 14 then some ['0', '1']
    else none

/-! ### Helper lemmas about the character-level parsing primitives -/

theorem dig_ne (c d : Char) (h : Dig c) (hd : d.toNat < 48 ∨ 57 < d.toNat) : c ≠ d := by
  intro he
  subst he
  obtain ⟨x, y⟩ := h
  omega

theorem dig_ne_colon {c : Char} (h : Dig c) : c ≠ ':' := dig_ne _ _ h (by decide)

theorem dig_ne_dot {c : Char} (h : Dig c) : c ≠ '.' := dig_ne _ _ h (by decide)

theorem dig_ne_minus {c : Char} (h : Dig c) : c ≠ '-' := dig_ne _ _ h (by decide)

theorem dig_ne_plus {c : Char} (h : Dig c) : c ≠ '+' := dig_ne _ _ h (by decide)

theorem dig_isDigitChar {c : Char} (h : Dig c) : isDigitChar c = true := by
  simp only [isDigitChar, Bool.and_eq_true, decide_eq_true_eq]
  exact h

theorem digitVal_le {c : Char} (h : Dig c) : digitVal c ≤ 9 := by
  obtain ⟨x, y⟩ := h
  unfold digitVal
  omega

theorem parseDigits_pair {a b : Char} (ha : Dig a) (hb : Dig b) :
    parseDigits [a, b] = some (10 * digitVal a + digitVal b) := by
  simp only [parseDigits, parseDigitsAux, dig_isDigitChar ha, dig_isDigitChar hb, if_true,
    Option.some.injEq]
  omega

theorem parseI32_pair {a b : Char} (ha : Dig a) (hb : Dig b) :
    parseI32 [a, b] = some ((10 * digitVal a + digitVal b : Nat) : Int) := by
  have hna := dig_ne_minus ha
  have hpa := dig_ne_plus ha
  simp only [parseI32, if_neg hna, if_neg hpa, parseDigits_pair ha hb, Option.some_bind]
  rw [if_pos]
  have := digitVal_le ha
  have := digitVal_le hb
  unfold i32Max
  omega

theorem splitOnChar_append (sep : Char) (l1 l2 : List Char) (h : sep ∉ l1) :
    splitOnChar sep (l1 ++ sep :: l2) = l1 :: splitOnChar sep l2 := by
  induction l1 with
  | nil => simp [splitOnChar]
  | cons c cs ih =>
    simp only [List.mem_cons, not_or] at h
    have hc : c ≠ sep := fun he => h.1 he.symm
    simp only [List.cons_append, splitOnChar, if_neg hc, List.append_eq]
    rw [ih h.2]

/-- Splitting the eight-character clock core on the colon. -/
theorem clock_split_colon {m1 m2 s1 s2 c1 c2 : Char}
    (h1 : Dig m1) (h2 : Dig m2) (h3 : Dig s1) (h4 : Dig s2) (h5 : Dig c1) (h6 : Dig c2) :
    splitOnChar ':' [m1, m2, ':', s1, s2, '.', c1, c2] =
      [[m1, m2], [s1, s2, '.', c1, c2]] := by
  simp only [splitOnChar, if_neg (dig_ne_colon h1), if_neg (dig_ne_colon h2), if_pos rfl,
    if_neg (dig_ne_colon h3), if_neg (dig_ne_colon h4),
    if_neg (show ('.' : Char) ≠ ':' by decide),
    if_neg (dig_ne_colon h5), if_neg (dig_ne_colon h6), if_true, ite_true]

/-- Splitting the seconds segment on the dot. -/
theorem clock_split_dot_seg {s1 s2 c1 c2 : Char}
    (h3 : Dig s1) (h4 : Dig s2) (h5 : Dig c1) (h6 : Dig c2) :
    splitOnChar '.' [s1, s2, '.', c1, c2] = [[s1, s2], [c1, c2]] := by
  simp only [splitOnChar, if_neg (dig_ne_dot h3), if_neg (dig_ne_dot h4),
    if_neg (dig_ne_dot h5), if_neg (dig_ne_dot h6), if_true, ite_true]

/-- Splitting the whole clock core on the dot. -/
theorem clock_split_dot_all {m1 m2 s1 s2 c1 c2 : Char}
    (h1 : Dig m1) (h2 : Dig m2) (h3 : Dig s1) (h4 : Dig s2) (h5 : Dig c1) (h6 : Dig c2) :
    splitOnChar '.' [m1, m2, ':', s1, s2, '.', c1, c2] =
      [[m1, m2, ':', s1, s2], [c1, c2]] := by
  simp only [splitOnChar, if_neg (dig_ne_dot h1), if_neg (dig_ne_dot h2),
    if_neg (show (':' : Char) ≠ '.' by decide), if_neg (dig_ne_dot h3),
    if_neg (dig_ne_dot h4), if_neg (dig_ne_dot h5), if_neg (dig_ne_dot h6), if_true, ite_true]

/-- The codec on a well-formed MM:SS.CC clock core. -/
theorem clock_encode (m1 m2 s1 s2 c1 c2 : Char)
    (h1 : Dig m1) (h2 : Dig m2) (h3 : Dig s1) (h4 : Dig s2) (h5 : Dig c1) (h6 : Dig c2) :
    time_to_miliseconds [m1, m2, ':', s1, s2, '.', c1, c2] =
      some (((10 * digitVal m1 + digitVal m2 : Nat) : Int) * 60000 +
            ((10 * digitVal s1 + digitVal s2 : Nat) : Int) * 1000 +
            ((10 * digitVal c1 + digitVal c2 : Nat) : Int) * 10) := by
  have e5 : ([[m1, m2, ':', s1, s2], [c1, c2]] : List (List Char)).getLastD [] = [c1, c2] := rfl
  rw [time_to_miliseconds, if_neg (by simp)]
  simp only [clock_split_colon h1 h2 h3 h4 h5 h6, clock_split_dot_all h1 h2 h3 h4 h5 h6,
    List.headI, List.get?, e5, clock_split_dot_seg h3 h4 h5 h6,
    parseI32_pair h1 h2, parseI32_pair h3 h4, parseI32_pair h5 h6]

/-! ### Claim theorems -/

/-- C4: for every valid clock string MM:SS.CC the Time Codec returns exactly
minutes*60000 + seconds*1000 + centiseconds*10; the empty string encodes to
0; and encode 01:02.34 = 62340. -/
theorem c4_time_codec_clock (m1 m2 s1 s2 c1 c2 : Char)
    (h1 : Dig m1) (h2 : Dig m2) (h3 : Dig s1) (h4 : Dig s2) (h5 : Dig c1) (h6 : Dig c2) :
    (time_to_miliseconds [m1, m2, ':', s1, s2, '.', c1, c2] =
      some (((10 * digitVal m1 + digitVal m2 : Nat) : Int) * 60000 +
            ((10 * digitVal s1 + digitVal s2 : Nat) : Int) * 1000 +
            ((10 * digitVal c1 + digitVal c2 : Nat) : Int) * 10)) ∧
    time_to_miliseconds [] = some 0 ∧
    time_to_miliseconds ['0', '1', ':', '0', '2', '.', '3', '4'] = some 62340 :=
  ⟨clock_encode m1 m2 s1 s2 c1 c2 h1 h2 h3 h4 h5 h6, by decide, by decide⟩

/-- Witness for C4 at the clock string 01:02.34. -/
theorem c4_time_codec_clock_witness :
    Dig '0' ∧
    time_to_miliseconds ['0', '1', ':', '0', '2', '.', '3', '4'] =
      some (((10 * digitVal '0' + digitVal '1' : Nat) : Int) * 60000 +
            ((10 * digitVal '0' + digitVal '2' : Nat) : Int) * 1000 +
            ((10 * digitVal '3' + digitVal '4' : Nat) : Int) * 10) :=
  ⟨by decide,
   (c4_time_codec_clock '0' '1' '0' '2' '3' '4' (by decide) (by decide) (by decide)
     (by decide) (by decide) (by decide)).1⟩

/-- C5: for every valid clock string MM:SS.CC with seconds below 60,
encoding and then re-deriving the components by division and modulus with
60000, 1000 and 10 recovers minutes, seconds and centiseconds exactly. -/
theorem c5_time_codec_roundtrip (m1 m2 s1 s2 c1 c2 : Char)
    (h1 : Dig m1) (h2 : Dig m2) (h3 : Dig s1) (h4 : Dig s2) (h5 : Dig c1) (h6 : Dig c2)
    (hs : 10 * digitVal s1 + digitVal s2 < 60) :
    ∃ ms : Int, time_to_miliseconds [m1, m2, ':', s1, s2, '.', c1, c2] = some ms ∧
      ms.toNat / 60000 = 10 * digitVal m1 + digitVal m2 ∧
      ms.toNat % 60000 / 1000 = 10 * digitVal s1 + digitVal s2 ∧
      ms.toNat % 1000 / 10 = 10 * digitVal c1 + digitVal c2 := by
  have hv := clock_encode m1 m2 s1 s2 c1 c2 h1 h2 h3 h4 h5 h6
  have b1 := digitVal_le h1
  have b2 := digitVal_le h2
  have b3 := digitVal_le h3
  have b4 := digitVal_le h4
  have b5 := digitVal_le h5
  have b6 := digitVal_le h6
  refine ⟨_, hv, ?_, ?_, ?_⟩
  all_goals
    rw [show (((10 * digitVal m1 + digitVal m2 : Nat) : Int) * 60000 +
          ((10 * digitVal s1 + digitVal s2 : Nat) : Int) * 1000 +
          ((10 * digitVal c1 + digitVal c2 : Nat) : Int) * 10) =
        (((10 * digitVal m1 + digitVal m2) * 60000 + (10 * digitVal s1 + digitVal s2) * 1000 +
          (10 * digitVal c1 + digitVal c2) * 10 : Nat) : Int) by push_cast; ring]
  all_goals rw [Int.toNat_natCast]
  all_goals omega

/-- Witness for C5 at the clock string 12:03.45. -/
theorem c5_time_codec_roundtrip_witness :
    (10 * digitVal '0' + digitVal '3' < 60) ∧
    ∃ ms : Int, time_to_miliseconds ['1', '2', ':', '0', '3', '.', '4', '5'] = some ms ∧
      ms.toNat / 60000 = 10 * digitVal '1' + digitVal '2' ∧
      ms.toNat % 60000 / 1000 = 10 * digitVal '0' + digitVal '3' ∧
      ms.toNat % 1000 / 10 = 10 * digitVal '4' + digitVal '5' :=
  ⟨by decide,
   c5_time_codec_roundtrip '1' '2' '0' '3' '4' '5' (by decide) (by decide) (by decide)
     (by decide) (by decide) (by decide) (by decide)⟩

/-- C3 counterexample: the non-empty input 00:xx.00 has an unparseable
seconds segment and the codec panics (the Rust unwrap fails) instead of
substituting 0 and returning a result. -/
theorem c3_counterexample :
    ['0', '0', ':', 'x', 'x', '.', '0', '0'] ≠ ([] : List Char) ∧
    time_to_miliseconds ['0', '0', ':', 'x', 'x', '.', '0', '0'] = none := by decide

/-- C3 amended: only the minutes segment enjoys the substitute-with-0
fallback. For every input made of an unparseable minutes segment (containing
no separator) followed by well-formed seconds and centiseconds, the codec
still returns a result with the minutes contribution 0; parse failures on
the seconds or centiseconds segments propagate as a panic. -/
theorem c3_minutes_fallback (mseg : List Char) (s1 s2 d1 d2 : Char)
    (hm : parseI32 mseg = none) (hc : ':' ∉ mseg) (hd : '.' ∉ mseg)
    (h3 : Dig s1) (h4 : Dig s2) (h5 : Dig d1) (h6 : Dig d2) :
    time_to_miliseconds (mseg ++ ':' :: s1 :: s2 :: '.' :: d1 :: [d2]) =
      some (((10 * digitVal s1 + digitVal s2 : Nat) : Int) * 1000 +
            ((10 * digitVal d1 + digitVal d2 : Nat) : Int) * 10) := by
  have e1 : splitOnChar ':' (mseg ++ ':' :: s1 :: s2 :: '.' :: d1 :: [d2]) =
      mseg :: splitOnChar ':' (s1 :: s2 :: '.' :: d1 :: [d2]) :=
    splitOnChar_append ':' mseg _ hc
  have e2 : splitOnChar ':' (s1 :: s2 :: '.' :: d1 :: [d2]) = [[s1, s2, '.', d1, d2]] := by
    simp only [splitOnChar, if_neg (dig_ne_colon h3), if_neg (dig_ne_colon h4),
      if_neg (show ('.' : Char) ≠ ':' by decide), if_neg (dig_ne_colon h5),
      if_neg (dig_ne_colon h6)]
  have hq : '.' ∉ mseg ++ [':', s1, s2] := by
    intro hmem
    rcases List.mem_append.mp hmem with hx | hx
    · exact hd hx
    · rcases List.mem_cons.mp hx with hy | hy
      · exact absurd hy (by decide)
      · rcases List.mem_cons.mp hy with hz | hz
        · exact dig_ne_dot h3 hz.symm
        · rcases List.mem_cons.mp hz with hw | hw
          · exact dig_ne_dot h4 hw.symm
          · exact (List.not_mem_nil '.') hw
  have e4 : splitOnChar '.' (mseg ++ ':' :: s1 :: s2 :: '.' :: d1 :: [d2]) =
      (mseg ++ [':', s1, s2]) :: [[d1, d2]] := by
    have hsh : mseg ++ ':' :: s1 :: s2 :: '.' :: d1 :: [d2] =
        (mseg ++ [':', s1, s2]) ++ '.' :: [d1, d2] := by simp
    rw [hsh, splitOnChar_append '.' _ _ hq]
    simp only [splitOnChar, if_neg (dig_ne_dot h5), if_neg (dig_ne_dot h6)]
  have hne : mseg ++ ':' :: s1 :: s2 :: '.' :: d1 :: [d2] ≠ [] := by simp
  have e5 : ((mseg ++ [':', s1, s2]) :: [[d1, d2]] : List (List Char)).getLastD [] =
      [d1, d2] := rfl
  rw [time_to_miliseconds, if_neg hne]
  simp only [e1, e2, e4, e5, List.headI, List.get?, hm,
    clock_split_dot_seg h3 h4 h5 h6, parseI32_pair h3 h4, parseI32_pair h5 h6]
  norm_num

/-- Witness for the amended C3 at input xx:02.34. -/
theorem c3_minutes_fallback_witness :
    parseI32 ['x', 'x'] = none ∧
    time_to_miliseconds (['x', 'x'] ++ ':' :: '0' :: '2' :: '.' :: '3' :: ['4']) =
      some (((10 * digitVal '0' + digitVal '2' : Nat) : Int) * 1000 +
            ((10 * digitVal '3' + digitVal '4' : Nat) : Int) * 10) :=
  ⟨by decide,
   c3_minutes_fallback ['x', 'x'] '0' '2' '3' '4' (by decide) (by decide) (by decide)
     (by decide) (by decide) (by decide) (by decide)⟩

/-- C7: the Style Normalizer is total — the ten listed abbreviations map to
their canonical styles and every other input maps to the explicit unknown
value (the empty string), never failing. -/
theorem c7_convert_style_total :
    convert_style ['F', 'r'] = FREESTYLEc ∧ convert_style ['F', 'r', 'e', 'e'] = FREESTYLEc ∧
    convert_style ['B', 'k'] = BACKSTROKEc ∧ convert_style ['B', 'a', 'c', 'k'] = BACKSTROKEc ∧
    convert_style ['B', 'r'] = BREASTSTROKEc ∧
    convert_style ['B', 'r', 'e', 'a', 's', 't'] = BREASTSTROKEc ∧
    convert_style ['F', 'L'] = BUTTERFLYc ∧ convert_style ['F', 'l', 'y'] = BUTTERFLYc ∧
    convert_style ['I', 'M'] = MEDLEYc ∧ convert_style ['I', '.', 'M'] = MEDLEYc ∧
    ∀ s : List Char,
      s ∉ [['F', 'r'], ['F', 'r', 'e', 'e'], ['B', 'k'], ['B', 'a', 'c', 'k'], ['B', 'r'],
           ['B', 'r', 'e', 'a', 's', 't'], ['F', 'L'], ['F', 'l', 'y'], ['I', 'M'],
           ['I', '.', 'M']] →
      convert_style s = [] := by
  refine ⟨by decide, by decide, by decide, by decide, by decide, by decide, by decide,
    by decide, by decide, by decide, ?_⟩
  intro s hs
  simp only [List.mem_cons, List.not_mem_nil, or_false, not_or] at hs
  obtain ⟨n1, n2, n3, n4, n5, n6, n7, n8, n9, n10⟩ := hs
  simp [convert_style, n1, n2, n3, n4, n5, n6, n7, n8, n9, n10]

/-- Witness for C7 at the unknown style code x. -/
theorem c7_convert_style_total_witness :
    (['x'] ∉ [['F', 'r'], ['F', 'r', 'e', 'e'], ['B', 'k'], ['B', 'a', 'c', 'k'], ['B', 'r'],
              ['B', 'r', 'e', 'a', 's', 't'], ['F', 'L'], ['F', 'l', 'y'], ['I', 'M'],
              ['I', '.', 'M']]) ∧
    convert_style ['x'] = [] :=
  ⟨by decide,
   c7_convert_style_total.2.2.2.2.2.2.2.2.2.2 ['x'] (by decide)⟩

/-- C2 counterexample: in rowC2 the LONG slot (cols 14/15) is fully well
formed and its date parses, but the SHORT slot's date-parse failure executes
`return`, so import_times issues no insert at all — the LONG slot of the same
row is not imported. -/
theorem c2_counterexample :
    rowC2 14 = some ['0', '1', ':', '0', '6', '.', '9', '9'] ∧
    pdSample ['M', 'a', 'r', '-', '0', '1', '-', '2', '4'] = some 19783 ∧
    timesImport pdSample rowC2 = some [] := by decide

/-- C2 amended: the two course slots are not independent. For a structurally
well-formed row with both time fields non-empty: when both dates parse, the
SHORT and then the LONG insert are issued; a date-parse failure on the SHORT
slot aborts the whole row's time import (nothing is issued, the LONG slot
included); a date-parse failure on the LONG slot skips only that slot. -/
theorem c2_course_slots (pd : DateParser) (row : Nat → Option (List Char))
    (sid ev t12 d13 t14 d15 : List Char) (d : Int)
    (h0 : row 0 = some sid) (h9 : row 9 = some ev)
    (hdist : parseI32 ((splitOnChar ' ' ev).headI) = some d)
    (h12 : row 12 = some t12) (h12n : t12 ≠ []) (h12l : 8 ≤ t12.length)
    (h13 : row 13 = some d13)
    (h14 : row 14 = some t14) (h14n : t14 ≠ []) (h14l : 8 ≤ t14.length)
    (h15 : row 15 = some d15) :
    (∀ ds dl ts tl, pd d13 = some ds → pd d15 = some dl →
      time_to_miliseconds (t12.take 8) = some ts →
      time_to_miliseconds (t14.take 8) = some tl →
      timesImport pd row =
        some [⟨sid, convert_style ((splitOnChar ' ' ev).getLastD []), d, SHORTc, ts, ds⟩,
              ⟨sid, convert_style ((splitOnChar ' ' ev).getLastD []), d, LONGc, tl, dl⟩]) ∧
    (pd d13 = none → timesImport pd row = some []) ∧
    (∀ ds ts, pd d13 = some ds → pd d15 = none →
      time_to_miliseconds (t12.take 8) = some ts →
      timesImport pd row =
        some [⟨sid, convert_style ((splitOnChar ' ' ev).getLastD []), d, SHORTc, ts, ds⟩]) := by
  refine ⟨?_, ?_, ?_⟩
  · intro ds dl ts tl hds hdl hts htl
    simp only [timesImport, h0, h9, hdist, h12, if_neg h12n, if_pos h12l, h13, hds,
      timeImport, hts, timesImportLong, h14, if_neg h14n, if_pos h14l, h15, hdl, htl]
    rfl
  · intro hds
    simp only [timesImport, h0, h9, hdist, h12, if_neg h12n, if_pos h12l, h13, hds]
  · intro ds ts hds hdl hts
    simp only [timesImport, h0, h9, hdist, h12, if_neg h12n, if_pos h12l, h13, hds,
      timeImport, hts, timesImportLong, h14, if_neg h14n, if_pos h14l, h15, hdl]

/-- Witness for the amended C2: on rowC2 the SHORT-slot date fails to parse
and the whole row's time import issues nothing. -/
theorem c2_course_slots_witness :
    pdSample ['b', 'a', 'd'] = none ∧ timesImport pdSample rowC2 = some [] :=
  ⟨by decide,
   (c2_course_slots pdSample rowC2 ['S', '1'] ['1', '0', '0', ' ', 'F', 'r']
      ['0', '1', ':', '0', '5', '.', '2', '3'] ['b', 'a', 'd']
      ['0', '1', ':', '0', '6', '.', '9', '9'] ['M', 'a', 'r', '-', '0', '1', '-', '2', '4']
      100 (by decide) (by decide) (by decide) (by decide) (by decide) (by decide) (by decide)
      (by decide) (by decide) (by decide) (by decide)).2.1 (by decide)⟩

/-- C8: a row whose birth-date field (col 7) fails to parse performs no
swimmer insert (the directory and the touched-id set are left unchanged) and
the error aborts only the identity step: processing still reaches the
time-import step of the same row, whose inserts are applied. -/
theorem c8_birthdate_failure (pd : DateParser) (st : EntriesState)
    (row : Nat → Option (List Char)) (c0 full g birth : List Char)
    (h0 : row 0 = some c0) (h4 : row 4 = some full) (h5 : row 5 = some g)
    (h7 : row 7 = some birth) (hpd : pd birth = none) :
    swimmerImport pd st.swimmers row = some (st.swimmers, Except.error ()) ∧
    entryRowImport pd st row =
      (timesImport pd row).map fun inserts =>
        { swimmers := st.swimmers, times := inserts.foldl insertTime st.times,
          ids := st.ids, num_entries := st.num_entries + 1 } := by
  have hsw : swimmerImport pd st.swimmers row = some (st.swimmers, Except.error ()) := by
    simp only [swimmerImport, h0, h4, h5, h7, hpd]
  refine ⟨hsw, ?_⟩
  cases hti : timesImport pd row with
  | none => simp only [entryRowImport, hsw, hti, Option.map_none']
  | some inserts => simp only [entryRowImport, hsw, hti, Option.map_some']

/-- Witness for C8 on rowC8: the birth date xx fails, the directory stays
empty, and the SHORT best time of the same row is still imported. -/
theorem c8_birthdate_failure_witness :
    pdSample ['x', 'x'] = none ∧
    (swimmerImport pdSample stSample.swimmers rowC8 =
       some (stSample.swimmers, Except.error ()) ∧
     entryRowImport pdSample stSample rowC8 =
       (timesImport pdSample rowC8).map fun inserts =>
         { swimmers := stSample.swimmers, times := inserts.foldl insertTime stSample.times,
           ids := stSample.ids, num_entries := stSample.num_entries + 1 }) :=
  ⟨by decide,
   c8_birthdate_failure pdSample stSample rowC8 ['S', '2']
     ['D', 'o', 'e', ' ', 'J', 'o', 'h', 'n'] ['m'] ['x', 'x']
     (by decide) (by decide) (by decide) (by decide) (by decide)⟩

/-- C9: the swimmer upsert is first-write-wins idempotent — when the (trimmed)
id of the row is already present in the directory, the insert with
"on conflict do nothing" leaves the store exactly as it was, regardless of
the row's (different) name, gender and birth date, and the id is returned. -/
theorem c9_upsert_first_write_wins (pd : DateParser) (db : List Swimmer)
    (row : Nat → Option (List Char)) (c0 full g birth : List Char) (bd : Date)
    (h0 : row 0 = some c0) (h4 : row 4 = some full) (h5 : row 5 = some g)
    (h7 : row 7 = some birth) (hpd : pd birth = some bd)
    (hex : db.any (fun r => r.id = trimChars c0) = true) :
    swimmerImport pd db row = some (db, Except.ok (trimChars c0)) := by
  simp only [swimmerImport, h0, h4, h5, h7, hpd, insertSwimmer, hex, if_true]

/-- Witness for C9: re-upserting id S1 with a different name, gender and
birth date leaves the one-record store unchanged and returns S1. -/
theorem c9_upsert_first_write_wins_witness :
    ([swimmerS1].any (fun r => r.id = trimChars [' ', 'S', '1', ' ']) = true) ∧
    swimmerImport pdSample [swimmerS1] rowC9 =
      some ([swimmerS1], Except.ok (trimChars [' ', 'S', '1', ' '])) :=
  ⟨by decide,
   c9_upsert_first_write_wins pdSample [swimmerS1] rowC9 [' ', 'S', '1', ' ']
     ['X', ' ', 'Y'] ['f'] ['M', 'a', 'r', '-', '0', '1', '-', '2', '4'] 19783
     (by decide) (by decide) (by decide) (by decide) (by decide) (by decide)⟩

/-- C10: the &time[..8] slice of import_times is partial — for every row whose
SHORT (col 12) or LONG (col 14) time field is non-empty but shorter than
8 characters, the slice is out of bounds and the function cannot complete
normally (the embedding's panic branch `none` is reached). -/
theorem c10_short_slice_out_of_bounds :
    (∀ (pd : DateParser) (row : Nat → Option (List Char)) (sid ev t12 : List Char) (d : Int),
      row 0 = some sid → row 9 = some ev →
      parseI32 ((splitOnChar ' ' ev).headI) = some d →
      row 12 = some t12 → t12 ≠ [] → t12.length < 8 →
      timesImport pd row = none) ∧
    (∀ (pd : DateParser) (row : Nat → Option (List Char)) (sid ev t14 : List Char) (d : Int),
      row 0 = some sid → row 9 = some ev →
      parseI32 ((splitOnChar ' ' ev).headI) = some d →
      row 12 = some [] → row 14 = some t14 → t14 ≠ [] → t14.length < 8 →
      timesImport pd row = none) := by
  constructor
  · intro pd row sid ev t12 d h0 h9 hd h12 hn hl
    have hnge : ¬(8 ≤ t12.length) := by omega
    simp only [timesImport, h0, h9, hd, h12, if_neg hn, if_neg hnge]
  · intro pd row sid ev t14 d h0 h9 hd h12 h14 hn hl
    have hnge : ¬(8 ≤ t14.length) := by omega
    simp only [timesImport, h0, h9, hd, h12, ite_true, timesImportLong, h14,
      if_neg hn, if_neg hnge]

/-- Witness for C10 on rowC10a (short SHORT field) and rowC10b (short LONG
field): both rows panic the time import. -/
theorem c10_short_slice_out_of_bounds_witness :
    (rowC10a 12 = some ['0', '1', ':', '0'] ∧ timesImport pdSample rowC10a = none) ∧
    (rowC10b 14 = some ['0', '1'] ∧ timesImport pdSample rowC10b = none) :=
  ⟨⟨by decide,
    c10_short_slice_out_of_bounds.1 pdSample rowC10a ['S', '1']
      ['1', '0', '0', ' ', 'F', 'r'] ['0', '1', ':', '0'] 100
      (by decide) (by decide) (by decide) (by decide) (by decide) (by decide)⟩,
   ⟨by decide,
    c10_short_slice_out_of_bounds.2 pdSample rowC10b ['S', '1']
      ['1', '0', '0', ' ', 'F', 'r'] ['0', '1'] 100
      (by decide) (by decide) (by decide) (by decide) (by decide) (by decide) (by decide)⟩⟩

/-- The name loop leaves (valid_swimmer, name_row) either invalidated, or
marked as a name row, or exactly as it found them. -/
theorem processNames_cases (db : List Swimmer) (l : List (List Char)) (sw : Swimmer)
    (vs nr : Bool) :
    (processNames db l sw vs nr).2.1 = false ∨ (processNames db l sw vs nr).2.2 = true ∨
    ((processNames db l sw vs nr).2.1 = vs ∧ (processNames db l sw vs nr).2.2 = nr) := by
  induction l generalizing sw vs nr with
  | nil => exact Or.inr (Or.inr ⟨rfl, rfl⟩)
  | cons n rest ih =>
    cases hs : search_swimmer_by_name db ((splitOnChar ',' n).headI) with
    | none => left; simp [processNames, hs]
    | some s =>
      simp only [processNames, hs]
      rcases ih s true true with h | h | h
      · exact Or.inl h
      · exact Or.inr (Or.inl h)
      · exact Or.inr (Or.inl h.2)

/-- Once the row state has valid_swimmer false or name_row true, the cell loop
breaks at the next cell and ends with valid_swimmer false or name_row true. -/
theorem processCells_invalid (db : List Swimmer) (cells : List Cell) (acc : RowAcc)
    (h : acc.vs = false ∨ acc.nr = true) :
    ∀ r, processCells db cells acc = some r → r.vs = false ∨ r.nr = true := by
  cases cells with
  | nil =>
    intro r hr
    simp only [processCells, Option.some.injEq] at hr
    subst hr
    exact h
  | cons cell rest =>
    intro r hr
    have hor : (processNames db cell.names acc.sw acc.vs acc.nr).2.1 = false ∨
        (processNames db cell.names acc.sw acc.vs acc.nr).2.2 = true := by
      rcases processNames_cases db cell.names acc.sw acc.vs acc.nr with h1 | h1 | h1
      · exact Or.inl h1
      · exact Or.inr h1
      · rcases h with h2 | h2
        · exact Or.inl (h1.1.trans h2)
        · exact Or.inr (h1.2.trans h2)
    have hcond : (!(processNames db cell.names acc.sw acc.vs acc.nr).2.1 ||
        (processNames db cell.names acc.sw acc.vs acc.nr).2.2 || !acc.vr) = true := by
      rcases hor with h1 | h1 <;> simp [h1]
    simp only [processCells, hcond, if_true, ite_true, Option.some.injEq] at hr
    subst hr
    exact hor

/-- C1 amended: once a header-row lookup has failed (valid_swimmer is false),
no row is accepted as a performance record until the next successful header
row; however — contrary to the claim — valid_swimmer starts out true, so a
well-formed data row before any header row is accepted, carrying the initial
empty swimmer (see the counterexample). -/
theorem c1_invalid_state_rejects (db : List Swimmer) (sw : Swimmer) (row : List Cell)
    (res : Swimmer × Bool × Option SwimmerTime)
    (h : processRow db sw false row = some res) : res.2.2 = none := by
  unfold processRow at h
  cases hp : processCells db row ⟨sw, false, false, true, 0, ⟨sw, [], 0, [], 0, dateMIN⟩⟩ with
  | none => rw [hp] at h; exact absurd h (by simp)
  | some acc =>
    rw [hp] at h
    have hor := processCells_invalid db row _ (Or.inl rfl) acc hp
    have hcond : (acc.vs && !acc.nr && acc.vr) = false := by
      rcases hor with h1 | h1 <;> simp [h1]
    simp only [hcond, Bool.false_eq_true, if_false, ite_false, Option.some.injEq] at h
    subst h
    rfl

/-- Witness for the amended C1: from an invalidated state, the well-formed
data row c1Row is not accepted. -/
theorem c1_invalid_state_rejects_witness :
    ((emptySwimmer, false, (none : Option SwimmerTime)) :
      Swimmer × Bool × Option SwimmerTime).2.2 = none :=
  c1_invalid_state_rejects [] emptySwimmer c1Row (emptySwimmer, false, none) (by decide)

/-- C1 counterexample: on an empty directory (every findByName lookup fails)
a document consisting of one well-formed data row and no header row still
yields one accepted performance record, carrying the initial empty swimmer —
because valid_swimmer is initialized to true in the source. -/
theorem c1_counterexample :
    meetResultsImport [] [c1Row] =
      some [{ swimmer := { id := [], first_name := [], last_name := [], gender := ['M'],
                           birth_date := dateMIN },
              style := FREESTYLEc, distance := 100, course := LONGc,
              time := 83450, time_date := dateMIN }] := by decide

/-- C6: a data row's cell 0 is accepted only when it matches the anchored
swim-clock regex (two digits with a [0-5] lead, a colon, two digits with a
[0-5] lead, any character, two digits, one non-space trailing character); on
failure the row is marked invalid; on match the first 8 characters are
decoded via the Time Codec and the trailing character selects the course
(L gives LONG, S gives SHORT, anything else leaves it unset). Concretely,
01:23.45L gives LONG at 83450 ms, 00:59.99S gives SHORT at 59990 ms, and
1:23.45L (wrong digit width) is rejected as invalid. -/
theorem c6_cell0_pattern :
    (∀ (v : List Char) (st : SwimmerTime) (vr : Bool), reMatch v = false →
      processValue 0 v st vr = some (st, false)) ∧
    (∀ (v : List Char) (st : SwimmerTime) (vr : Bool), reMatch v = true →
      processValue 0 v st vr =
        (time_to_miliseconds (v.take 8)).map fun t =>
          ({ st with time := t, course := courseOf v st.course }, vr)) ∧
    reMatch ['0', '1', ':', '2', '3', '.', '4', '5', 'L'] = true ∧
    (∀ (st : SwimmerTime) (vr : Bool),
      processValue 0 ['0', '1', ':', '2', '3', '.', '4', '5', 'L'] st vr =
        some ({ st with time := 83450, course := LONGc }, vr)) ∧
    (∀ (st : SwimmerTime) (vr : Bool),
      processValue 0 ['0', '0', ':', '5', '9', '.', '9', '9', 'S'] st vr =
        some ({ st with time := 59990, course := SHORTc }, vr)) ∧
    reMatch ['1', ':', '2', '3', '.', '4', '5', 'L'] = false ∧
    (∀ (st : SwimmerTime) (vr : Bool),
      processValue 0 ['1', ':', '2', '3', '.', '4', '5', 'L'] st vr = some (st, false)) := by
  refine ⟨?_, ?_, by decide, ?_, ?_, by decide, ?_⟩
  · intro v st vr h
    simp [processValue, h]
  · intro v st vr h
    simp only [processValue, h, if_true, ite_true]
    cases ht : time_to_miliseconds (v.take 8) with
    | none => rfl
    | some t =>
      simp only [Option.map_some', courseOf, List.getLastD_eq_getLast?]
      by_cases hL : v.getLast?.getD ' ' = 'L'
      · have hLS : ¬(v.getLast?.getD ' ' = 'S') := by rw [hL]; decide
        simp [hL, hLS]
      · by_cases hS : v.getLast?.getD ' ' = 'S'
        · simp [hL, hS]
        · simp [hL, hS]
  · intro st vr; rfl
  · intro st vr; rfl
  · intro st vr; rfl

/-- Witness for C6: the one-character cell z fails the pattern and the row is
marked invalid. -/
theorem c6_cell0_pattern_witness :
    reMatch ['z'] = false ∧ processValue 0 ['z'] sampleTime true = some (sampleTime, false) :=
  ⟨by decide, c6_cell0_pattern.1 ['z'] sampleTime true (by decide)⟩

end Coach
